import Mathlib

/-!
# Verification of the system-monitor telemetry pipeline (`src/main.js`)

Shallow embedding of the main-process telemetry pipeline of the Electron
system-monitor app: the CPU usage estimator (`getCpuUsage`), the rolling
performance-history buffer (`addToHistory`), the GPU / network / disk
fetchers (`getGPUInfo`, `getNetworkInfo`, `getDiskUsage`) and the
`get-system-info` IPC handler that assembles the flat snapshot.

Modelling conventions:
* JavaScript numbers are modelled with exact arithmetic (`ℤ`, `ℚ`).  The
  few places where IEEE-754 rounding could differ from exact arithmetic
  (tick counters and byte counts beyond 2^53) are outside the ranges the
  theorems use.  The special values NaN / ±Infinity only arise in the
  source inside `~~(...)` (ToInt32 maps them to 0) and are modelled there
  explicitly.
* Shell commands (`execSync`) are fallible external calls: each is
  modelled as an input of the poll, `Option`-typed, `none` meaning the
  call threw or timed out.  Regex captures on the raw output are modelled
  as the captured values (the regexes `/Name=(.+)/`, `/SSID\s*:\s*(.+)/`
  and `/Signal\s*:\s*(\d+)%/` capture an arbitrary line suffix resp. an
  arbitrary digit string).  The disk query's line-oriented parsing
  (`split`, `filter`, `startsWith`, `parseInt`) is embedded on strings.
* `Math.random()` draws are inputs of the poll (rationals in `[0,1)`).
* Mutable module state (`previousCpuInfo`, `performanceHistory`) is
  explicit state passed through the handler.
-/

/-! ## JavaScript numeric primitives -/

/-- `Math.round x`: round half toward +∞, `⌊x + 1/2⌋`. -/

def jsRound (q : ℚ) : ℤ := ⌊q + 1/2⌋

/-- `x.toFixed(1)` produces the decimal string of `x` rounded to one
fractional digit; the model keeps the numeric value `round(10x)/10`. -/
def jsToFixed1 (q : ℚ) : ℚ := (jsRound (q * 10) : ℚ) / 10

/-- ToInt32: reduce an integer into `[-2^31, 2^31)` modulo `2^32`
(the final step of the `~~` operator on a finite value). -/
def toInt32 (n : ℤ) : ℤ :=
  let m := n % 2 ^ 32
  if m < 2 ^ 31 then m else m - 2 ^ 32

/-- `~~(a / b)` on JavaScript numbers with integral `a`, `b`: division by
zero yields NaN or ±Infinity, which ToInt32 maps to `0`; otherwise the
quotient is truncated toward zero (`Int.tdiv`) and wrapped to int32. -/
def jsTruncDiv (a b : ℤ) : ℤ :=
  if b = 0 then 0 else toInt32 (Int.tdiv a b)

/-- JavaScript strings are character sequences; the string operations
the disk parser needs (`startsWith`, `split('=')`, `parseInt`) are
implemented over `List Char` so every theorem can be evaluated on
concrete command output.  `charStartsWith cs p` is `cs.startsWith(p)`. -/
def charStartsWith : List Char → List Char → Bool
  | _, [] => true
  | [], _ :: _ => false
  | c :: cs, p :: ps => c = p && charStartsWith cs ps

/-- `s.split(sep)`: the pieces between occurrences of `sep` (JS `split`
with a single-character separator; adjacent separators give empty
pieces, and the result is never empty). -/
def splitOnChar (sep : Char) : List Char → List (List Char)
  | [] => [[]]
  | c :: rest =>
      match splitOnChar sep rest with
      | [] => [[]]
      | piece :: pieces =>
          if c = sep then [] :: piece :: pieces else (c :: piece) :: pieces

/-- `parseInt(s)`: skip leading whitespace, optional sign, then the
longest digit prefix; `none` models NaN (no digits). -/
def parseIntChars (cs : List Char) : Option ℤ :=
  let t := cs.dropWhile Char.isWhitespace
  let signed : ℤ × List Char :=
    match t with
    | '-' :: r => (-1, r)
    | '+' :: r => (1, r)
    | _ => (1, t)
  let digits := signed.2.takeWhile Char.isDigit
  if digits.isEmpty then none
  else some (signed.1 * digits.foldl (fun n c => 10 * n + ((c.toNat : ℤ) - 48)) 0)

/-! ## CPU usage estimator (`getCpuUsage`, main.js lines 127–156) -/

/-- One entry of `os.cpus()[i].times` (Node exposes these five fields). -/
structure CpuTimes where
  user : ℕ
  nice : ℕ
  sys  : ℕ
  idle : ℕ
  irq  : ℕ
deriving DecidableEq, Repr

/-- `for type in cpu.times` sums every field. -/
def CpuTimes.total (t : CpuTimes) : ℕ := t.user + t.nice + t.sys + t.idle + t.irq

/-- The stored `previousCpuInfo` shape `{ idle, total }`. -/
structure CpuSample where
  idle  : ℕ
  total : ℕ
deriving DecidableEq, Repr

/-- Summing loop of `getCpuUsage`: accumulate idle and total ticks over
all cores. -/
def sampleOfCpus (cpus : List CpuTimes) : CpuSample :=
  { idle  := (cpus.map CpuTimes.idle).sum
    total := (cpus.map CpuTimes.total).sum }

/-- Body of the `if (previousCpuInfo)` branch:
`cpuUsage = 100 - ~~(100 * idleDifference / totalDifference)` followed by
`Math.max(0, Math.min(100, cpuUsage))`. -/
def cpuUsageCalc (prev cur : CpuSample) : ℤ :=
  let idleDifference : ℤ := (cur.idle : ℤ) - (prev.idle : ℤ)
  let totalDifference : ℤ := (cur.total : ℤ) - (prev.total : ℤ)
  let cpuUsage := 100 - jsTruncDiv (100 * idleDifference) totalDifference
  max 0 (min 100 cpuUsage)

/-- One call of `getCpuUsage`: takes the stored `previousCpuInfo` and the
fresh `os.cpus()` data, returns the usage and the new stored sample. -/
def getCpuUsage (previousCpuInfo : Option CpuSample) (cpus : List CpuTimes) :
    ℤ × CpuSample :=
  let currentCpuInfo := sampleOfCpus cpus
  match previousCpuInfo with
  | some prev => (cpuUsageCalc prev currentCpuInfo, currentCpuInfo)
  | none => (0, currentCpuInfo)

/-- Run the estimator over a sequence of polls starting from stored state
`st`, collecting the returned percentages. -/
def runCpuEstimatorFrom (st : Option CpuSample) : List (List CpuTimes) → List ℤ
  | [] => []
  | cpus :: rest =>
      let (u, s) := getCpuUsage st cpus
      u :: runCpuEstimatorFrom (some s) rest

/-- Estimator run from process start (`previousCpuInfo = null`). -/
def runCpuEstimator (polls : List (List CpuTimes)) : List ℤ :=
  runCpuEstimatorFrom none polls

/-! ## History buffer (`addToHistory`, main.js lines 11–26) -/

/-- `performanceHistory.maxDataPoints`. -/
def maxDataPoints : ℕ := 60

/-- `addToHistory`: `history.push(value)` then
`if (history.length > maxDataPoints) history.shift()`. -/
def addToHistory {α : Type _} (history : List α) (value : α) : List α :=
  let pushed := history ++ [value]
  if maxDataPoints < pushed.length then pushed.tail else pushed

/-- A sequence of pushes into an initially empty buffer. -/
def historyRun {α : Type _} (values : List α) : List α :=
  values.foldl addToHistory []

/-! ## GPU fetcher (`getGPUInfo`, main.js lines 333–360) -/

/-- Return shape of `getGPUInfo`. -/
structure GpuInfo where
  name        : String
  memory      : String
  temperature : ℤ
  usage       : ℤ
deriving DecidableEq, Repr

/-- `getGPUInfo`.  `nameMatch` is the capture of `/Name=(.+)/` on the
`wmic` output when the command succeeded and matched; `none` covers both
an `execSync` throw/timeout and a non-matching output — either way the
code falls through to the fallback.  `rTemp`, `rUsage` are the two
`Math.random()` draws of whichever branch runs. -/
def getGPUInfo (nameMatch : Option String) (rTemp rUsage : ℚ) : GpuInfo :=
  match nameMatch with
  | some captured =>
      { name := captured.trim
        memory := "Unknown"
        temperature := jsRound (25 + rTemp * 15)
        usage := jsRound (rUsage * 30) }
  | none =>
      { name := "Integrated Graphics"
        memory := "Shared"
        temperature := jsRound (30 + rTemp * 10)
        usage := jsRound (rUsage * 20) }

/-! ## Network fetcher (`getNetworkInfo`, main.js lines 291–330) -/

/-- Return shape of `getNetworkInfo`. -/
structure NetworkInfo where
  ssid           : String
  signalStrength : ℤ
  networkType    : String
  isConnected    : Bool
  downloadSpeed  : ℤ
  uploadSpeed    : ℤ
deriving DecidableEq, Repr

/-- Result of the `netsh wlan show interfaces` call, as seen through the
two regexes: `none` when `execSync` threw/timed out or `/SSID\s*:\s*(.+)/`
did not match (both fall through to the fallback path); otherwise the
SSID capture together with the optional `/Signal\s*:\s*(\d+)%/` capture
(a digit string, modelled by its value). -/
def NetshMatch := Option (String × Option ℕ)

/-- `getNetworkInfo`.  `activeInterfaceCount` is the number of external
IPv4 entries of `os.networkInterfaces()` used by the fallback path;
`rDown`, `rUp` are the `Math.random()` draws of whichever branch runs. -/
def getNetworkInfo (netsh : NetshMatch) (activeInterfaceCount : ℕ)
    (rDown rUp : ℚ) : NetworkInfo :=
  match netsh with
  | some (ssidCaptured, signalCaptured) =>
      { ssid := ssidCaptured.trim
        signalStrength :=
          match signalCaptured with
          | some digits => (digits : ℤ)
          | none => 75
        networkType := "802.11n"
        isConnected := true
        downloadSpeed := jsRound (rDown * 50 + 10)
        uploadSpeed := jsRound (rUp * 20 + 5) }
  | none =>
      { ssid := if 0 < activeInterfaceCount then "Connected" else "Not Connected"
        signalStrength := if 0 < activeInterfaceCount then 75 else 0
        networkType := "Ethernet"
        isConnected := 0 < activeInterfaceCount
        downloadSpeed := jsRound (rDown * 30 + 5)
        uploadSpeed := jsRound (rUp * 15 + 2) }

/-! ## Disk fetcher (`getDiskUsage`, main.js lines 378–417) -/

/-- Return shape of `getDiskUsage`. -/
structure DiskInfo where
  usagePercentage : ℚ
  totalGB         : ℚ
  freeGB          : ℚ
  usedGB          : ℚ
deriving DecidableEq, Repr

/-- The fixed fallback record of `getDiskUsage`. -/
def diskFallback : DiskInfo :=
  { usagePercentage := 45, totalGB := 500, freeGB := 275, usedGB := 225 }

/-- `parseInt(line.split('=')[1]) || 0`: the piece after the first `=`,
parsed, with NaN (no digits / missing piece) coerced to `0`. -/
def diskLineValue (line : String) : ℤ :=
  (parseIntChars ((splitOnChar '=' line.toList).getD 1 [])).getD 0

/-- The `forEach` accumulation over the `includes('=')`-filtered lines:
the last `FreeSpace=`-prefixed line wins for `freeSpace`, the last
`Size=`-prefixed line wins for `totalSpace`, both start at `0`. -/
def diskFold (lines : List String) : ℤ × ℤ :=
  (lines.filter fun l => l.toList.contains '=').foldl
    (fun acc line =>
      if charStartsWith line.toList "FreeSpace=".toList then
        (diskLineValue line, acc.2)
      else if charStartsWith line.toList "Size=".toList then
        (acc.1, diskLineValue line)
      else acc)
    (0, 0)

/-- `freeSpace` after parsing the command output lines. -/
def diskFreeSpace (lines : List String) : ℤ := (diskFold lines).1

/-- `totalSpace` after parsing the command output lines. -/
def diskTotalSpace (lines : List String) : ℤ := (diskFold lines).2

/-- `getDiskUsage`.  The input is the `execSync` result split into lines
(`result.split('\n')`), `none` when the command threw or timed out. -/
def getDiskUsage (execResult : Option (List String)) : DiskInfo :=
  match execResult with
  | none => diskFallback
  | some lines =>
      let freeSpace := diskFreeSpace lines
      let totalSpace := diskTotalSpace lines
      if 0 < totalSpace then
        let usedSpace := totalSpace - freeSpace
        let usagePercentage : ℚ := ((usedSpace : ℚ) / (totalSpace : ℚ)) * 100
        { usagePercentage := (jsRound (usagePercentage * 100) : ℚ) / 100
          totalGB := (jsRound ((totalSpace : ℚ) / 1024 ^ 3 * 10) : ℚ) / 10
          freeGB := (jsRound ((freeSpace : ℚ) / 1024 ^ 3 * 10) : ℚ) / 10
          usedGB := (jsRound ((usedSpace : ℚ) / 1024 ^ 3 * 10) : ℚ) / 10 }
      else diskFallback

/-! ## Simulated temperature (`getSystemTemperature`, main.js lines 159–166) -/

/-- `getSystemTemperature(cpuUsage)` with its `Math.random()` draw `r`. -/
def getSystemTemperature (cpuUsage : ℤ) (r : ℚ) : ℤ :=
  jsRound (35 + (cpuUsage : ℚ) * (4/10) + (r - 1/2) * 4)

/-! ## Snapshot assembler (`ipcMain.handle('get-system-info')`,
main.js lines 420–519)

The handler reads a batch of OS / shell data and assembles the flat
snapshot.  Everything the handler reads from the outside during one call
is collected in `AdapterPoll`; the process-wide mutable state it reads
and writes (`previousCpuInfo`, `performanceHistory`) is `MonitorState`.
The pass-through metadata fields (`cpuModel`, `cpuSpeed`, `platform`,
`hostname`, `uptime`, `osType`, `osRelease`, `loadAverage`,
`networkAdapters`, `networkInterfaces`, `detailedHardware`) copy adapter
strings verbatim and are left out of the model; every computed field is
kept.  The handler performs FOUR separate `getDiskUsage()` calls, one per
storage field, so the poll carries four independent disk-command
results. -/

/-- All external data one `get-system-info` call consumes. -/
structure AdapterPoll where
  /-- `os.cpus()[i].times` for each core. -/
  cpus : List CpuTimes
  /-- `os.totalmem()` in bytes. -/
  totalmem : ℕ
  /-- `os.freemem()` in bytes. -/
  freemem : ℕ
  /-- `/Name=(.+)/` capture of the GPU `wmic` query (none = throw or no match). -/
  gpuNameMatch : Option String
  gpuRandTemp : ℚ
  gpuRandUsage : ℚ
  /-- `netsh` regex captures, see `NetshMatch`. -/
  netsh : NetshMatch
  /-- external IPv4 entries of `os.networkInterfaces()`. -/
  activeInterfaceCount : ℕ
  netRandDown : ℚ
  netRandUp : ℚ
  /-- the four `getDiskUsage()` invocations' command results, in order:
  `storageUsage`, `storageTotalGB`, `storageFreeGB`, `storageUsedGB`. -/
  diskExec1 : Option (List String)
  diskExec2 : Option (List String)
  diskExec3 : Option (List String)
  diskExec4 : Option (List String)
  /-- `Math.random()` draw of `getSystemTemperature`. -/
  tempRand : ℚ

/-- Process-wide mutable state of main.js. -/
structure MonitorState where
  previousCpuInfo : Option CpuSample
  historyCpu : List ℚ
  historyMemory : List ℚ

/-- The state at process start (`previousCpuInfo = null`, empty buffers). -/
def initialMonitorState : MonitorState :=
  { previousCpuInfo := none, historyCpu := [], historyMemory := [] }

/-- The computed fields of the object returned by the handler. -/
structure Snapshot where
  cpuUsage : ℤ
  cpuCores : ℕ
  cpuTemperature : ℤ
  gpuName : String
  gpuMemory : String
  gpuTemperature : ℤ
  gpuUsage : ℤ
  memoryUsage : ℚ
  totalMemory : ℚ
  freeMemory : ℚ
  usedMemory : ℚ
  performanceHistoryCpu : List ℚ
  performanceHistoryMemory : List ℚ
  storageUsage : ℚ
  storageTotalGB : ℚ
  storageFreeGB : ℚ
  storageUsedGB : ℚ
  networkSSID : String
  networkSignal : ℤ
  networkType : String
  networkConnected : Bool
  downloadSpeed : ℤ
  uploadSpeed : ℤ

/-- External fetches a poll performs, for counting invocations. -/
inductive FetchEvent where
  | gpuFetch
  | networkFetch
  | diskFetch
deriving DecidableEq, Repr

/-- One `get-system-info` handler call.  Returns the snapshot, the
updated process-wide state, and the trace of expensive external fetches
the call performed (the handler invokes `getGPUInfo` and
`getNetworkInfo` unconditionally — there is no cache consulted before
either call — and `getDiskUsage` four times). -/
def getSystemInfo (st : MonitorState) (a : AdapterPoll) :
    Snapshot × MonitorState × List FetchEvent :=
  let totalMemory := a.totalmem
  let freeMemory := a.freemem
  let usedMemory : ℤ := (totalMemory : ℤ) - (freeMemory : ℤ)
  let (currentCpuUsage, newPrev) := getCpuUsage st.previousCpuInfo a.cpus
  let cpuPercentage : ℚ := (currentCpuUsage : ℚ)
  let memoryPercentage : ℚ := ((usedMemory : ℚ) / (totalMemory : ℚ)) * 100
  let historyCpu := addToHistory st.historyCpu cpuPercentage
  let historyMemory := addToHistory st.historyMemory memoryPercentage
  let gpuInfo := getGPUInfo a.gpuNameMatch a.gpuRandTemp a.gpuRandUsage
  let networkInfo := getNetworkInfo a.netsh a.activeInterfaceCount
    a.netRandDown a.netRandUp
  let snapshot : Snapshot :=
    { cpuUsage := currentCpuUsage
      cpuCores := a.cpus.length
      cpuTemperature := getSystemTemperature currentCpuUsage a.tempRand
      gpuName := gpuInfo.name
      gpuMemory := gpuInfo.memory
      gpuTemperature := gpuInfo.temperature
      gpuUsage := gpuInfo.usage
      memoryUsage := memoryPercentage
      totalMemory := jsToFixed1 ((totalMemory : ℚ) / 1024 ^ 3)
      freeMemory := jsToFixed1 ((freeMemory : ℚ) / 1024 ^ 3)
      usedMemory := jsToFixed1 ((usedMemory : ℚ) / 1024 ^ 3)
      performanceHistoryCpu := historyCpu
      performanceHistoryMemory := historyMemory
      storageUsage := (getDiskUsage a.diskExec1).usagePercentage
      storageTotalGB := (getDiskUsage a.diskExec2).totalGB
      storageFreeGB := (getDiskUsage a.diskExec3).freeGB
      storageUsedGB := (getDiskUsage a.diskExec4).usedGB
      networkSSID := networkInfo.ssid
      networkSignal := networkInfo.signalStrength
      networkType := networkInfo.networkType
      networkConnected := networkInfo.isConnected
      downloadSpeed := networkInfo.downloadSpeed
      uploadSpeed := networkInfo.uploadSpeed }
  let newState : MonitorState :=
    { previousCpuInfo := some newPrev
      historyCpu := historyCpu
      historyMemory := historyMemory }
  (snapshot, newState,
    [FetchEvent.gpuFetch, FetchEvent.networkFetch,
     FetchEvent.diskFetch, FetchEvent.diskFetch,
     FetchEvent.diskFetch, FetchEvent.diskFetch])

/-- Run a sequence of polls, concatenating the fetch traces. -/
def runPolls (st : MonitorState) : List AdapterPoll →
    MonitorState × List FetchEvent
  | [] => (st, [])
  | a :: rest =>
      let (_, st1, tr) := getSystemInfo st a
      let (st2, trs) := runPolls st1 rest
      (st2, tr ++ trs)

/-- Number of GPU fetches a trace contains. -/
def gpuFetchCount (tr : List FetchEvent) : ℕ :=
  (tr.filter fun e => e = FetchEvent.gpuFetch).length

/-! ## Expensive-call cache

Modelled from the spec: spec §4.2 (`getOrRefresh(category, ttlMillis,
fetchFn)`) and the `systemInfoCache` / `CACHE_DURATION = 5000` caching
excerpt in the repository README document a time-windowed memoization
layer in front of the GPU / network fetches.  No such layer exists in
`src/main.js` (its handler calls `getGPUInfo()` / `getNetworkInfo()`
unconditionally), so the cache is modelled here from the spec's words
for comparison with the handler's actual fetch trace. -/

/-- Modelled from the spec: one `getOrRefresh` step.  `entry` is the
stored `CacheEntry` (`value`, `capturedAtEpochMillis`) or `none`;
`fetched` is what `fetchFn` would return now.  Result: the returned
value, the stored entry afterwards, and whether `fetchFn` was invoked. -/
def getOrRefresh {α : Type _} (ttlMillis : ℕ) (now : ℕ)
    (entry : Option (α × ℕ)) (fetched : α) : α × (α × ℕ) × Bool :=
  match entry with
  | some (value, capturedAt) =>
      if now - capturedAt < ttlMillis then (value, (value, capturedAt), false)
      else (fetched, (fetched, now), true)
  | none => (fetched, (fetched, now), true)

/-! ## Heap model for the history copy (`[...performanceHistory.cpu]`,
main.js lines 473–476)

JavaScript arrays are heap references; the spread syntax allocates a
fresh array with copied contents.  To state the aliasing claim the
relevant slice of the heap is modelled explicitly: a store of arrays
addressed by index. -/

/-- Read the array a reference denotes (out-of-range reads give `[]`;
the theorems only use in-range references). -/
def readRef (store : List (List ℚ)) (r : ℕ) : List ℚ := store.getD r []

/-- In-place mutation of the array a reference denotes. -/
def writeRef (store : List (List ℚ)) (r : ℕ) (v : List ℚ) :
    List (List ℚ) := store.set r v

/-- Allocate a fresh array: its reference is the store's length. -/
def allocRef (store : List (List ℚ)) (v : List ℚ) :
    List (List ℚ) × ℕ := (store ++ [v], store.length)

/-- The `performanceHistory` part of the snapshot:
`{ cpu: [...performanceHistory.cpu], memory: [...performanceHistory.memory] }`
allocates two fresh arrays holding copies of the internal buffers. -/
def buildHistorySnapshot (store : List (List ℚ)) (cpuRef memRef : ℕ) :
    List (List ℚ) × ℕ × ℕ :=
  let (store1, cpuCopy) := allocRef store (readRef store cpuRef)
  let (store2, memCopy) := allocRef store1 (readRef store1 memRef)
  (store2, cpuCopy, memCopy)

/-! ## Fetcher-level helper lemmas -/

/-- The disk query failed: the command threw / timed out, or its output
parsed to no positive `Size` value. -/
def DiskFailed (execResult : Option (List String)) : Prop :=
  execResult = none ∨
    ∃ lines, execResult = some lines ∧ diskTotalSpace lines ≤ 0

/-- A disk-command result is sane when any parsed output satisfies
`0 ≤ FreeSpace ≤ Size` (a real volume reading). -/
def DiskSane (execResult : Option (List String)) : Prop :=
  ∀ lines, execResult = some lines →
    0 ≤ diskFreeSpace lines ∧ diskFreeSpace lines ≤ diskTotalSpace lines

/-- A netsh result is sane when any captured signal percentage is at
most 100. -/
def NetshSane (netsh : NetshMatch) : Prop :=
  ∀ s sig, netsh = some (s, some sig) → sig ≤ 100

/-! ## Concrete poll inputs and snapshot shorthand -/

/-- The snapshot a poll returns. -/
def pollSnapshot (st : MonitorState) (a : AdapterPoll) : Snapshot :=
  (getSystemInfo st a).1

/-- Number of network fetches a trace contains. -/
def networkFetchCount (tr : List FetchEvent) : ℕ :=
  (tr.filter fun e => e = FetchEvent.networkFetch).length

/-- A minimal poll input: every shell call failed, no external IPv4
interfaces, all `Math.random()` draws zero, no cores, zero memory. -/
def adapterBase : AdapterPoll :=
  { cpus := []
    totalmem := 0
    freemem := 0
    gpuNameMatch := none
    gpuRandTemp := 0
    gpuRandUsage := 0
    netsh := none
    activeInterfaceCount := 0
    netRandDown := 0
    netRandUp := 0
    diskExec1 := none
    diskExec2 := none
    diskExec3 := none
    diskExec4 := none
    tempRand := 0 }

/-- A poll where the first disk query fails but the second succeeds on a
1000·2³⁰-byte volume (the volume the four separate `getDiskUsage()`
calls see need not agree). -/
def adapterMixedDisk : AdapterPoll :=
  { adapterBase with
    diskExec2 := some ["FreeSpace=536870912000", "Size=1073741824000"] }

/-- A poll whose memory counters report more free than total bytes
(1 GiB total, 2 GiB free). -/
def adapterOverFree : AdapterPoll :=
  { adapterBase with totalmem := 1073741824, freemem := 2147483648 }

/-- A sane poll input: 2 bytes total memory, 1 byte free, every shell
call failed. -/
def adapterSane : AdapterPoll :=
  { adapterBase with totalmem := 2, freemem := 1 }


/-! ### History buffer lemmas -/

theorem addToHistory_eq_drop {α : Type _} (l : List α) (v : α) :
    addToHistory (l.drop (l.length - maxDataPoints)) v =
      (l ++ [v]).drop ((l ++ [v]).length - maxDataPoints) := by
  have hm : maxDataPoints = 60 := rfl
  unfold addToHistory
  rcases le_or_lt l.length maxDataPoints with h | h
  · have h0 : l.length - maxDataPoints = 0 := Nat.sub_eq_zero_of_le h
    rw [h0, List.drop_zero]
    by_cases h1 : l.length = maxDataPoints
    · have hlen : (l ++ [v]).length - maxDataPoints = 1 := by
        simp [List.length_append, h1]
      have hgt : maxDataPoints < (l ++ [v]).length := by
        simp [List.length_append, h1]
      rw [if_pos hgt, hlen]
      cases l with
      | nil => simp [maxDataPoints] at h1
      | cons a as => simp
    · have hlt : l.length < maxDataPoints := lt_of_le_of_ne h h1
      have hle : ¬ maxDataPoints < (l ++ [v]).length := by
        simp only [List.length_append, List.length_singleton, not_lt]
        omega
      have hz : (l ++ [v]).length - maxDataPoints = 0 := by
        simp only [List.length_append, List.length_singleton]
        omega
      rw [if_neg hle, hz, List.drop_zero]
  · -- the buffer is already full: drop is nonempty of length exactly 60
    have hdl : (l.drop (l.length - maxDataPoints)).length = maxDataPoints := by
      rw [List.length_drop]; omega
    have hgt : maxDataPoints <
        (l.drop (l.length - maxDataPoints) ++ [v]).length := by
      simp [List.length_append, hdl]
    rw [if_pos hgt]
    have hne : l.drop (l.length - maxDataPoints) ≠ [] := by
      intro hnil
      rw [hnil] at hdl
      simp [maxDataPoints] at hdl
    rw [List.tail_append_of_ne_nil hne, List.tail_drop]
    have harith : (l ++ [v]).length - maxDataPoints = l.length - maxDataPoints + 1 := by
      simp only [List.length_append, List.length_singleton]
      omega
    rw [harith, List.drop_append_of_le_length (by omega)]

/-- The buffer after any run from empty equals the last `maxDataPoints`
pushed values, in push order. -/
theorem historyRun_eq_drop {α : Type _} (values : List α) :
    historyRun values = values.drop (values.length - maxDataPoints) := by
  induction values using List.reverseRecOn with
  | nil => simp [historyRun]
  | append_singleton l v ih =>
      have hfold : historyRun (l ++ [v]) = addToHistory (historyRun l) v := by
        simp [historyRun]
      rw [hfold, ih, addToHistory_eq_drop]

theorem historyRun_length {α : Type _} (values : List α) :
    (historyRun values).length = min values.length maxDataPoints := by
  rw [historyRun_eq_drop, List.length_drop]
  omega

/-- The documented cache behaviour the code lacks: with TTL 5000ms, a
second call 1000ms after the first is served from the cache (no fetch),
while a second call 6000ms after the first fetches again. -/
theorem getOrRefresh_ttl_window :
    (getOrRefresh 5000 0 (none : Option (ℤ × ℕ)) 7).2.2 = true ∧
    (getOrRefresh 5000 1000 (some (getOrRefresh 5000 0 none (7 : ℤ)).2.1) 8).2.2 = false ∧
    (getOrRefresh 5000 6000 (some (getOrRefresh 5000 0 none (7 : ℤ)).2.1) 8).2.2 = true := by
  decide

theorem getD_set_ne {α : Type _} :
    ∀ (l : List α) (n m : ℕ) (v : α) (d : α), n ≠ m →
      (l.set n v).getD m d = l.getD m d
  | [], _, _, _, _, _ => rfl
  | _ :: _, 0, 0, _, _, h => absurd rfl h
  | _ :: _, 0, _ + 1, _, _, _ => rfl
  | _ :: _, _ + 1, 0, _, _, _ => rfl
  | _ :: l, n + 1, m + 1, v, d, h =>
      getD_set_ne l n m v d (fun he => h (by rw [he]))

theorem getD_append_lt {α : Type _} :
    ∀ (l l' : List α) (n : ℕ) (d : α), n < l.length →
      (l ++ l').getD n d = l.getD n d
  | [], _, _, _, h => absurd h (Nat.not_lt_zero _)
  | _ :: _, _, 0, _, _ => rfl
  | _ :: l, l', n + 1, d, h =>
      getD_append_lt l l' n d (Nat.lt_of_succ_lt_succ h)

theorem getD_append_self {α : Type _} :
    ∀ (l : List α) (v : α) (d : α), (l ++ [v]).getD l.length d = v
  | [], _, _ => rfl
  | _ :: l, v, d => getD_append_self l v d

/-! ## Arithmetic helper lemmas -/

theorem jsRound_nonneg {q : ℚ} (h : 0 ≤ q) : 0 ≤ jsRound q := by
  unfold jsRound
  refine Int.le_floor.mpr ?_
  rw [Int.cast_zero]
  linarith

theorem jsRound_le {q : ℚ} {n : ℤ} (h : q ≤ (n : ℚ)) : jsRound q ≤ n := by
  unfold jsRound
  refine Int.floor_le_iff.mpr ?_
  linarith

theorem jsToFixed1_nonneg {q : ℚ} (h : 0 ≤ q) : 0 ≤ jsToFixed1 q := by
  unfold jsToFixed1
  have h2 : (0 : ℚ) ≤ (jsRound (q * 10) : ℚ) := by
    exact_mod_cast jsRound_nonneg (q := q * 10) (by positivity)
  exact div_nonneg h2 (by norm_num)

theorem cpuUsageCalc_range (prev cur : CpuSample) :
    0 ≤ cpuUsageCalc prev cur ∧ cpuUsageCalc prev cur ≤ 100 := by
  unfold cpuUsageCalc
  constructor
  · exact le_max_left 0 _
  · exact max_le (by norm_num) (min_le_left 100 _)

theorem toInt32_eq_self {n : ℤ} (h0 : 0 ≤ n) (h1 : n < 2 ^ 31) : toInt32 n = n := by
  unfold toInt32
  have hmod : n % 2 ^ 32 = n := Int.emod_eq_of_lt h0 (by omega)
  simp only [hmod]
  rw [if_pos h1]

/-- For a nonnegative dividend and positive divisor, the code's
truncating division (`~~` on the quotient) is the floor of the exact
rational quotient, provided the quotient fits in int32. -/
theorem jsTruncDiv_eq_floor {a b : ℤ} (ha : 0 ≤ a) (hb : 0 < b)
    (hfit : Int.tdiv a b < 2 ^ 31) :
    jsTruncDiv a b = ⌊(a : ℚ) / (b : ℚ)⌋ := by
  unfold jsTruncDiv
  rw [if_neg (by omega)]
  have htd : Int.tdiv a b = a / b := Int.tdiv_eq_ediv ha (le_of_lt hb)
  have hnn : 0 ≤ Int.tdiv a b := by
    rw [htd]; exact Int.ediv_nonneg ha (le_of_lt hb)
  rw [toInt32_eq_self hnn hfit, htd]
  obtain ⟨d, rfl⟩ : ∃ d : ℕ, b = (d : ℤ) :=
    ⟨b.toNat, (Int.toNat_of_nonneg (le_of_lt hb)).symm⟩
  exact_mod_cast (Rat.floor_intCast_div_natCast a d).symm

/-- Memory-style ratio bound: `0 ≤ f ≤ t`, `0 < t` gives
`(t - f)/t * 100 ∈ [0,100]` (exact arithmetic, no rounding). -/
theorem ratio_bound {t f : ℚ} (h0 : 0 < t) (hf0 : 0 ≤ f) (hft : f ≤ t) :
    0 ≤ (t - f) / t * 100 ∧ (t - f) / t * 100 ≤ 100 := by
  constructor
  · exact mul_nonneg (div_nonneg (by linarith) h0.le) (by norm_num)
  · have h1 : (t - f) / t ≤ 1 := by
      rw [div_le_one h0]; linarith
    nlinarith

/-- Definitional unfolding of `getDiskUsage` on a parsed output. -/
theorem getDiskUsage_some (lines : List String) :
    getDiskUsage (some lines) =
      if 0 < diskTotalSpace lines then
        { usagePercentage :=
            (jsRound (((diskTotalSpace lines - diskFreeSpace lines : ℤ) : ℚ) /
              (diskTotalSpace lines : ℚ) * 100 * 100) : ℚ) / 100
          totalGB :=
            (jsRound ((diskTotalSpace lines : ℚ) / 1024 ^ 3 * 10) : ℚ) / 10
          freeGB :=
            (jsRound ((diskFreeSpace lines : ℚ) / 1024 ^ 3 * 10) : ℚ) / 10
          usedGB :=
            (jsRound (((diskTotalSpace lines - diskFreeSpace lines : ℤ) : ℚ) /
              1024 ^ 3 * 10) : ℚ) / 10 }
      else diskFallback := rfl

theorem getDiskUsage_fallback_of_failed (execResult : Option (List String))
    (h : DiskFailed execResult) : getDiskUsage execResult = diskFallback := by
  rcases h with h | ⟨lines, rfl, hle⟩
  · rw [h]; rfl
  · rw [getDiskUsage_some, if_neg (by omega)]

theorem getDiskUsage_bounds (execResult : Option (List String))
    (h : DiskSane execResult) :
    (0 ≤ (getDiskUsage execResult).usagePercentage ∧
      (getDiskUsage execResult).usagePercentage ≤ 100) ∧
    0 ≤ (getDiskUsage execResult).totalGB ∧
    0 ≤ (getDiskUsage execResult).freeGB ∧
    0 ≤ (getDiskUsage execResult).usedGB := by
  match execResult with
  | none =>
      refine ⟨⟨?_, ?_⟩, ?_, ?_, ?_⟩ <;> norm_num [getDiskUsage, diskFallback]
  | some lines =>
      obtain ⟨hf0, hft⟩ := h lines rfl
      rw [getDiskUsage_some]
      by_cases hpos : 0 < diskTotalSpace lines
      · rw [if_pos hpos]
        dsimp only
        set F := diskFreeSpace lines with hF
        set T := diskTotalSpace lines with hT
        have hT0 : (0 : ℚ) < (T : ℚ) := by exact_mod_cast hpos
        have hF0 : (0 : ℚ) ≤ (F : ℚ) := by exact_mod_cast hf0
        have hFT : (F : ℚ) ≤ (T : ℚ) := by exact_mod_cast hft
        have hused : ((T - F : ℤ) : ℚ) = (T : ℚ) - (F : ℚ) := by push_cast; ring
        obtain ⟨hr0, hr1⟩ := ratio_bound hT0 hF0 hFT
        constructor
        · constructor
          · simp only [hused]
            have := jsRound_nonneg (q := (T : ℚ) - (F : ℚ)) (by linarith)
            have hnn : 0 ≤ jsRound (((T : ℚ) - (F : ℚ)) / (T : ℚ) * 100 * 100) :=
              jsRound_nonneg (by nlinarith)
            have : (0 : ℚ) ≤ (jsRound (((T : ℚ) - (F : ℚ)) / (T : ℚ) * 100 * 100) : ℚ) := by
              exact_mod_cast hnn
            exact div_nonneg this (by norm_num)
          · simp only [hused]
            have hle : ((T : ℚ) - (F : ℚ)) / (T : ℚ) * 100 * 100 ≤ ((10000 : ℤ) : ℚ) := by
              push_cast; nlinarith
            have := jsRound_le hle
            have hc : (jsRound (((T : ℚ) - (F : ℚ)) / (T : ℚ) * 100 * 100) : ℚ) ≤ 10000 := by
              exact_mod_cast this
            rw [div_le_iff₀ (by norm_num : (0:ℚ) < 100)]
            linarith
        · refine ⟨?_, ?_, ?_⟩
          · have := jsRound_nonneg (q := (T : ℚ) / 1024 ^ 3 * 10) (by positivity)
            have hc : (0 : ℚ) ≤ (jsRound ((T : ℚ) / 1024 ^ 3 * 10) : ℚ) := by
              exact_mod_cast this
            exact div_nonneg hc (by norm_num)
          · have := jsRound_nonneg (q := (F : ℚ) / 1024 ^ 3 * 10) (by positivity)
            have hc : (0 : ℚ) ≤ (jsRound ((F : ℚ) / 1024 ^ 3 * 10) : ℚ) := by
              exact_mod_cast this
            exact div_nonneg hc (by norm_num)
          · simp only [hused]
            have hn : (0 : ℚ) ≤ ((T : ℚ) - (F : ℚ)) / 1024 ^ 3 * 10 := by
              have : (0:ℚ) ≤ (T : ℚ) - (F : ℚ) := by linarith
              positivity
            have := jsRound_nonneg hn
            have hc : (0 : ℚ) ≤ (jsRound (((T : ℚ) - (F : ℚ)) / 1024 ^ 3 * 10) : ℚ) := by
              exact_mod_cast this
            exact div_nonneg hc (by norm_num)
      · rw [if_neg hpos]
        refine ⟨⟨?_, ?_⟩, ?_, ?_, ?_⟩ <;> norm_num [diskFallback]

theorem getGPUInfo_usage_bounds (nameMatch : Option String) (rTemp rUsage : ℚ)
    (h0 : 0 ≤ rUsage) (h1 : rUsage < 1) :
    0 ≤ (getGPUInfo nameMatch rTemp rUsage).usage ∧
      (getGPUInfo nameMatch rTemp rUsage).usage ≤ 100 := by
  match nameMatch with
  | some captured =>
      simp only [getGPUInfo]
      refine ⟨jsRound_nonneg (by positivity), ?_⟩
      have : jsRound (rUsage * 30) ≤ (30 : ℤ) := jsRound_le (by push_cast; nlinarith)
      omega
  | none =>
      simp only [getGPUInfo]
      refine ⟨jsRound_nonneg (by positivity), ?_⟩
      have : jsRound (rUsage * 20) ≤ (20 : ℤ) := jsRound_le (by push_cast; nlinarith)
      omega

theorem getNetworkInfo_signal_bounds (netsh : NetshMatch)
    (activeInterfaceCount : ℕ) (rDown rUp : ℚ) (h : NetshSane netsh) :
    0 ≤ (getNetworkInfo netsh activeInterfaceCount rDown rUp).signalStrength ∧
      (getNetworkInfo netsh activeInterfaceCount rDown rUp).signalStrength ≤ 100 := by
  match hn : netsh with
  | some (ssidCaptured, some sig) =>
      have := h ssidCaptured sig rfl
      simp only [getNetworkInfo]
      omega
  | some (ssidCaptured, none) =>
      simp only [getNetworkInfo]
      omega
  | none =>
      simp only [getNetworkInfo]
      by_cases hc : 0 < activeInterfaceCount <;> simp [hc]

/-- Every output of an estimator run lies in `[0,100]` (first call gives
`0`, later calls are clamped). -/
theorem runCpuEstimatorFrom_range (st : Option CpuSample)
    (polls : List (List CpuTimes)) :
    ∀ u ∈ runCpuEstimatorFrom st polls, 0 ≤ u ∧ u ≤ 100 := by
  induction polls generalizing st with
  | nil => intro u hu; cases hu
  | cons cpus rest ih =>
      intro u hu
      match st with
      | some prev =>
          simp only [runCpuEstimatorFrom, getCpuUsage, List.mem_cons] at hu
          rcases hu with rfl | hu
          · exact cpuUsageCalc_range prev (sampleOfCpus cpus)
          · exact ih _ u hu
      | none =>
          simp only [runCpuEstimatorFrom, getCpuUsage, List.mem_cons] at hu
          rcases hu with rfl | hu
          · exact ⟨le_refl 0, by norm_num⟩
          · exact ih _ u hu

/-! ## Claim theorems: CPU usage estimator -/

/-- Claim C2.  The claim states that a call with `totalDelta == 0`
returns `0`.  The code has no such guard: `100 * idleDelta / 0` is NaN or
±Infinity, `~~` (ToInt32) maps those to `0`, so the call returns
`100 - 0 = 100` (clamped to `100`) — never NaN/Infinity, but also never
`0`.  This theorem evaluates the code on the claim's situation: whenever
`totalDelta = 0`, the result is `100`, contradicting the claimed `0`. -/
theorem cpu_usage_totalDelta_zero_returns_100 (prev cur : CpuSample)
    (h : (cur.total : ℤ) - (prev.total : ℤ) = 0) :
    cpuUsageCalc prev cur = 100 ∧ cpuUsageCalc prev cur ≠ 0 := by
  have hdef : cpuUsageCalc prev cur =
      max 0 (min 100 (100 - jsTruncDiv (100 * ((cur.idle : ℤ) - (prev.idle : ℤ)))
        ((cur.total : ℤ) - (prev.total : ℤ)))) := rfl
  rw [hdef, h]
  constructor <;> norm_num [jsTruncDiv]

/-- Witness for C2 at the concrete failing input
`previous = {idle:1000, total:10000}`, `current = {idle:1050, total:10000}`
(`totalDelta = 0`): the code returns `100`. -/
theorem cpu_usage_totalDelta_zero_returns_100_witness :
    (((⟨1050, 10000⟩ : CpuSample).total : ℤ) -
        ((⟨1000, 10000⟩ : CpuSample).total : ℤ) = 0) ∧
    cpuUsageCalc ⟨1000, 10000⟩ ⟨1050, 10000⟩ = 100 :=
  ⟨by decide,
   (cpu_usage_totalDelta_zero_returns_100 ⟨1000, 10000⟩ ⟨1050, 10000⟩
     (by decide)).1⟩

/-- Claim C5.  Every value the estimator returns over any sequence of
tick samples lies in `[0,100]`, and the very first call after
initialization (no stored previous sample) returns exactly `0`. -/
theorem cpu_estimator_range_and_first_call (polls : List (List CpuTimes)) :
    (∀ u ∈ runCpuEstimator polls, 0 ≤ u ∧ u ≤ 100) ∧
    (∀ cpus rest, polls = cpus :: rest →
      (runCpuEstimator polls).head? = some 0) := by
  constructor
  · exact runCpuEstimatorFrom_range none polls
  · rintro cpus rest rfl
    rfl

/-- Witness for C5 on a concrete two-poll run. -/
theorem cpu_estimator_range_and_first_call_witness :
    (0 : ℤ) ∈ runCpuEstimator [[⟨1, 1, 1, 1, 1⟩], [⟨2, 1, 1, 3, 1⟩]] ∧
    (0 ≤ (0 : ℤ) ∧ (0 : ℤ) ≤ 100) ∧
    (runCpuEstimator [[⟨1, 1, 1, 1, 1⟩], [⟨2, 1, 1, 3, 1⟩]]).head? = some 0 := by
  refine ⟨by decide, ?_, ?_⟩
  · exact (cpu_estimator_range_and_first_call
      [[⟨1, 1, 1, 1, 1⟩], [⟨2, 1, 1, 3, 1⟩]]).1 0 (by decide)
  · exact (cpu_estimator_range_and_first_call
      [[⟨1, 1, 1, 1, 1⟩], [⟨2, 1, 1, 3, 1⟩]]).2 _ _ rfl

/-- Counterexample for C4.  The claim says the returned usage equals
`100 - 100*idleDelta/totalDelta` clamped to `[0,100]`.  The code
truncates the quotient before subtracting: with `idleDelta = 1`,
`totalDelta = 3` (previous `{idle:0,total:0}`, current `{idle:1,total:3}`)
the code returns `100 - ~~(100/3) = 67`, while the claim's formula gives
`100 - 100/3 = 200/3 ≈ 66.67`. -/
theorem cpu_usage_exact_formula_counterexample :
    ((cpuUsageCalc ⟨0, 0⟩ ⟨1, 3⟩ : ℤ) : ℚ) ≠
      max 0 (min 100 (100 - 100 * (1 : ℚ) / 3)) := by
  have htd : Int.tdiv 100 3 = 33 := by decide
  have h1 : cpuUsageCalc ⟨0, 0⟩ ⟨1, 3⟩ = 67 := by
    norm_num [cpuUsageCalc, jsTruncDiv, toInt32, htd, max_def, min_def]
  rw [h1]
  norm_num [max_def, min_def]

/-- Amended C4.  With a previous sample, `totalDelta > 0`,
`idleDelta ≥ 0` and an int32-sized quotient, the returned usage is
`100 - ⌊100*idleDelta/totalDelta⌋` clamped to `[0,100]` (the quotient is
truncated before the subtraction); it coincides with the claim's exact
formula whenever `totalDelta` divides `100*idleDelta` — in particular the
claim's example `{idle:1000,total:10000} → {idle:1050,total:10500}`
yields exactly `90`. -/
theorem cpu_usage_truncated_formula (prev cur : CpuSample)
    (hpos : 0 < (cur.total : ℤ) - (prev.total : ℤ))
    (hidle : 0 ≤ (cur.idle : ℤ) - (prev.idle : ℤ))
    (hfit : Int.tdiv (100 * ((cur.idle : ℤ) - (prev.idle : ℤ)))
        ((cur.total : ℤ) - (prev.total : ℤ)) < 2 ^ 31) :
    cpuUsageCalc prev cur =
      max 0 (min 100 (100 -
        ⌊100 * ((cur.idle : ℚ) - (prev.idle : ℚ)) /
          ((cur.total : ℚ) - (prev.total : ℚ))⌋)) ∧
    (((cur.total : ℤ) - (prev.total : ℤ)) ∣
        100 * ((cur.idle : ℤ) - (prev.idle : ℤ)) →
      ((cpuUsageCalc prev cur : ℤ) : ℚ) =
        max 0 (min 100 (100 - 100 * ((cur.idle : ℚ) - (prev.idle : ℚ)) /
          ((cur.total : ℚ) - (prev.total : ℚ))))) := by
  have ha : 0 ≤ 100 * ((cur.idle : ℤ) - (prev.idle : ℤ)) :=
    mul_nonneg (by norm_num) hidle
  have hdef : cpuUsageCalc prev cur =
      max 0 (min 100 (100 - jsTruncDiv (100 * ((cur.idle : ℤ) - (prev.idle : ℤ)))
        ((cur.total : ℤ) - (prev.total : ℤ)))) := rfl
  have hfl := jsTruncDiv_eq_floor ha hpos hfit
  have hcast : ((100 * ((cur.idle : ℤ) - (prev.idle : ℤ)) : ℤ) : ℚ) /
      (((cur.total : ℤ) - (prev.total : ℤ) : ℤ) : ℚ) =
      100 * ((cur.idle : ℚ) - (prev.idle : ℚ)) /
        ((cur.total : ℚ) - (prev.total : ℚ)) := by
    push_cast
    ring
  constructor
  · rw [hdef, hfl, hcast]
  · intro hdvd
    obtain ⟨k, hk⟩ := hdvd
    have hb0 : ((cur.total : ℤ) - (prev.total : ℤ)) ≠ 0 := by omega
    have hbq : (((cur.total : ℤ) - (prev.total : ℤ) : ℤ) : ℚ) ≠ 0 :=
      Int.cast_ne_zero.mpr hb0
    have hbq' : ((cur.total : ℚ) - (prev.total : ℚ)) ≠ 0 := by
      push_cast at hbq
      exact hbq
    have hq : ((100 * ((cur.idle : ℤ) - (prev.idle : ℤ)) : ℤ) : ℚ) /
        (((cur.total : ℤ) - (prev.total : ℤ) : ℤ) : ℚ) = (k : ℚ) := by
      rw [hk]
      push_cast
      exact mul_div_cancel_left₀ _ hbq'
    rw [hdef, hfl, hq, Int.floor_intCast, ← hcast, hq]
    push_cast
    rfl

/-- Witness for amended C4 at the claim's example: previous
`{idle:1000,total:10000}`, current `{idle:1050,total:10500}` gives
exactly `90 = 100 - 100*50/500`. -/
theorem cpu_usage_truncated_formula_witness :
    (0 < ((⟨1050, 10500⟩ : CpuSample).total : ℤ) -
        ((⟨1000, 10000⟩ : CpuSample).total : ℤ)) ∧
    cpuUsageCalc ⟨1000, 10000⟩ ⟨1050, 10500⟩ = 90 := by
  constructor
  · decide
  · have h := (cpu_usage_truncated_formula ⟨1000, 10000⟩ ⟨1050, 10500⟩
      (by decide) (by decide) (by decide)).1
    rw [h]
    norm_num [max_def, min_def]

/-! ## Claim theorems: history buffer -/

set_option maxRecDepth 8000 in
/-- Claim C3.  The history buffer is a bounded FIFO: after any `N > 60`
pushes from empty it holds exactly the last 60 pushed values in push
order, its length never exceeds 60, and pushing `10,20,...,700`
(70 values) leaves a buffer starting at `110` and ending at `700`. -/
theorem history_buffer_bounded_fifo :
    (∀ (values : List ℚ), 60 < values.length →
      historyRun values = values.drop (values.length - 60) ∧
      (historyRun values).length = 60) ∧
    (∀ (values : List ℚ), (historyRun values).length ≤ 60) ∧
    (historyRun ((List.range 70).map fun i => 10 * (i + 1))).head? = some 110 ∧
    (historyRun ((List.range 70).map fun i => 10 * (i + 1))).getLast? = some 700 := by
  have hm : maxDataPoints = 60 := rfl
  refine ⟨?_, ?_, by decide, by decide⟩
  · intro values h
    refine ⟨historyRun_eq_drop values, ?_⟩
    rw [historyRun_length]
    omega
  · intro values
    rw [historyRun_length]
    omega

/-- Witness for C3: 61 pushes leave the last 60 values, length 60. -/
theorem history_buffer_bounded_fifo_witness :
    60 < (List.replicate 61 (0 : ℚ)).length ∧
    historyRun (List.replicate 61 (0 : ℚ)) =
      (List.replicate 61 (0 : ℚ)).drop ((List.replicate 61 (0 : ℚ)).length - 60) ∧
    (historyRun (List.replicate 61 (0 : ℚ))).length = 60 := by
  have h := history_buffer_bounded_fifo.1 (List.replicate 61 (0 : ℚ)) (by simp)
  exact ⟨by simp, h.1, h.2⟩

/-! ## Claim theorems: disk usage -/

/-- Claim C10.  Whenever the disk command throws / times out (`none`) or
its output parses to no positive `Size` value, `getDiskUsage` returns
exactly the fixed fallback record
`{usagePercentage: 45, totalGB: 500, freeGB: 275, usedGB: 225}`. -/
theorem disk_usage_fallback_on_failure (execResult : Option (List String))
    (h : DiskFailed execResult) :
    getDiskUsage execResult =
      { usagePercentage := 45, totalGB := 500, freeGB := 275, usedGB := 225 } :=
  getDiskUsage_fallback_of_failed execResult h

/-- Witness for C10 on output with a `FreeSpace` line but no `Size`
line: `totalSpace` stays `0` and the fallback is returned. -/
theorem disk_usage_fallback_on_failure_witness :
    DiskFailed (some ["FreeSpace=100"]) ∧
    getDiskUsage (some ["FreeSpace=100"]) =
      { usagePercentage := 45, totalGB := 500, freeGB := 275, usedGB := 225 } := by
  have hf : DiskFailed (some ["FreeSpace=100"]) :=
    Or.inr ⟨["FreeSpace=100"], rfl, by decide⟩
  exact ⟨hf, disk_usage_fallback_on_failure _ hf⟩

/-- Claim C9.  The four storage fields come from four independent
`getDiskUsage()` invocations, so one snapshot can mix fallback and
measured values: with the first disk query failing and the second
succeeding on a 1000 GiB volume, the snapshot reports the fallback
`storageUsage = 45` (whose matching volume would be 500 GB) next to the
measured `storageTotalGB = 1000`. -/
theorem storage_fields_independent_queries_mix :
    (pollSnapshot initialMonitorState adapterMixedDisk).storageUsage =
      diskFallback.usagePercentage ∧
    (pollSnapshot initialMonitorState adapterMixedDisk).storageTotalGB = 1000 ∧
    (pollSnapshot initialMonitorState adapterMixedDisk).storageTotalGB ≠
      diskFallback.totalGB := by
  have htot : diskTotalSpace ["FreeSpace=536870912000", "Size=1073741824000"] =
      1073741824000 := by decide
  have ht : (pollSnapshot initialMonitorState adapterMixedDisk).storageTotalGB =
      (getDiskUsage (some ["FreeSpace=536870912000", "Size=1073741824000"])).totalGB :=
    rfl
  have h2 : (getDiskUsage
      (some ["FreeSpace=536870912000", "Size=1073741824000"])).totalGB = 1000 := by
    rw [getDiskUsage_some, if_pos (by rw [htot]; norm_num)]
    dsimp only
    rw [htot]
    norm_num [jsRound]
  refine ⟨rfl, ?_, ?_⟩
  · rw [ht, h2]
  · rw [ht, h2]
    norm_num [diskFallback]

/-! ## Claim theorems: snapshot assembly -/

/-- Claim C6.  When every disk query of a poll fails (throw, timeout or
unparsable output), the poll still returns a complete snapshot: the
storage fields carry the documented defaults `45 / 500 / 275 / 225`, the
CPU field is exactly the estimator's output (clamped into `[0,100]`) and
the memory field is exactly the value computed from the memory counters
— the disk failure reaches neither of them nor the caller. -/
theorem snapshot_isolates_disk_failure (st : MonitorState) (a : AdapterPoll)
    (h1 : DiskFailed a.diskExec1) (h2 : DiskFailed a.diskExec2)
    (h3 : DiskFailed a.diskExec3) (h4 : DiskFailed a.diskExec4) :
    (pollSnapshot st a).storageUsage = 45 ∧
    (pollSnapshot st a).storageTotalGB = 500 ∧
    (pollSnapshot st a).storageFreeGB = 275 ∧
    (pollSnapshot st a).storageUsedGB = 225 ∧
    (pollSnapshot st a).cpuUsage = (getCpuUsage st.previousCpuInfo a.cpus).1 ∧
    0 ≤ (pollSnapshot st a).cpuUsage ∧ (pollSnapshot st a).cpuUsage ≤ 100 ∧
    (pollSnapshot st a).memoryUsage =
      (((a.totalmem : ℤ) - (a.freemem : ℤ) : ℤ) : ℚ) / (a.totalmem : ℚ) * 100 := by
  have e1 : (pollSnapshot st a).storageUsage =
      (getDiskUsage a.diskExec1).usagePercentage := rfl
  have e2 : (pollSnapshot st a).storageTotalGB =
      (getDiskUsage a.diskExec2).totalGB := rfl
  have e3 : (pollSnapshot st a).storageFreeGB =
      (getDiskUsage a.diskExec3).freeGB := rfl
  have e4 : (pollSnapshot st a).storageUsedGB =
      (getDiskUsage a.diskExec4).usedGB := rfl
  have ecpu : (pollSnapshot st a).cpuUsage =
      (getCpuUsage st.previousCpuInfo a.cpus).1 := rfl
  refine ⟨?_, ?_, ?_, ?_, ecpu, ?_, ?_, rfl⟩
  · rw [e1, getDiskUsage_fallback_of_failed _ h1]
    rfl
  · rw [e2, getDiskUsage_fallback_of_failed _ h2]
    rfl
  · rw [e3, getDiskUsage_fallback_of_failed _ h3]
    rfl
  · rw [e4, getDiskUsage_fallback_of_failed _ h4]
    rfl
  · rw [ecpu]
    match hst : st.previousCpuInfo with
    | some prev => exact (cpuUsageCalc_range prev (sampleOfCpus a.cpus)).1
    | none => exact le_refl 0
  · rw [ecpu]
    match hst : st.previousCpuInfo with
    | some prev => exact (cpuUsageCalc_range prev (sampleOfCpus a.cpus)).2
    | none => norm_num [getCpuUsage]

/-- Claim C1.  The spec and the repository README document a 5000ms
expensive-call cache in front of the GPU/network lookups (`getOrRefresh`
over `CacheEntry`, the README's `systemInfoCache` with
`CACHE_DURATION = 5000`).  `src/main.js` contains no such cache: its
`get-system-info` handler awaits `getGPUInfo()` and `getNetworkInfo()`
unconditionally on every poll, so any two polls — however close
together, in particular 1000ms apart — perform two GPU fetches and two
network fetches where the documented behaviour requires one. -/
theorem gpu_network_fetch_every_poll (st : MonitorState)
    (a1 a2 : AdapterPoll) :
    gpuFetchCount (runPolls st [a1, a2]).2 = 2 ∧
    networkFetchCount (runPolls st [a1, a2]).2 = 2 := by
  constructor <;> rfl

/-- Claim C8.  The `performanceHistory` part of the snapshot is built
with the spread syntax, which allocates fresh arrays copying the
internal buffers: the copies hold the buffers' contents, and writing
anything through the two returned references leaves the internal
`cpu`/`memory` buffers — hence every later snapshot — unchanged. -/
theorem history_snapshot_copy_no_aliasing (store : List (List ℚ))
    (cpuRef memRef : ℕ) (hc : cpuRef < store.length)
    (hm : memRef < store.length) (v w : List ℚ) :
    readRef (buildHistorySnapshot store cpuRef memRef).1
        (buildHistorySnapshot store cpuRef memRef).2.1 = readRef store cpuRef ∧
    readRef (buildHistorySnapshot store cpuRef memRef).1
        (buildHistorySnapshot store cpuRef memRef).2.2 = readRef store memRef ∧
    readRef (writeRef (writeRef (buildHistorySnapshot store cpuRef memRef).1
          (buildHistorySnapshot store cpuRef memRef).2.1 v)
        (buildHistorySnapshot store cpuRef memRef).2.2 w) cpuRef =
      readRef store cpuRef ∧
    readRef (writeRef (writeRef (buildHistorySnapshot store cpuRef memRef).1
          (buildHistorySnapshot store cpuRef memRef).2.1 v)
        (buildHistorySnapshot store cpuRef memRef).2.2 w) memRef =
      readRef store memRef := by
  simp only [buildHistorySnapshot, allocRef]
  unfold readRef writeRef
  refine ⟨?_, ?_, ?_, ?_⟩
  · rw [getD_append_lt _ _ _ _ (by simp), getD_append_self]
  · rw [getD_append_self, getD_append_lt _ _ _ _ hm]
  · rw [getD_set_ne _ _ _ _ _ (by simp only [List.length_append]; omega),
      getD_set_ne _ _ _ _ _ (by omega),
      getD_append_lt _ _ _ _ (by simp only [List.length_append]; omega),
      getD_append_lt _ _ _ _ hc]
  · rw [getD_set_ne _ _ _ _ _ (by simp only [List.length_append]; omega),
      getD_set_ne _ _ _ _ _ (by omega),
      getD_append_lt _ _ _ _ (by simp only [List.length_append]; omega),
      getD_append_lt _ _ _ _ hm]

/-- Witness for C8 on the concrete store `[[1],[2]]`: after overwriting
both arrays returned in the snapshot, the internal buffer at reference
`0` still reads `[1]`. -/
theorem history_snapshot_copy_no_aliasing_witness :
    0 < ([[(1 : ℚ)], [2]] : List (List ℚ)).length ∧
    1 < ([[(1 : ℚ)], [2]] : List (List ℚ)).length ∧
    readRef (writeRef (writeRef (buildHistorySnapshot [[(1 : ℚ)], [2]] 0 1).1
          (buildHistorySnapshot [[(1 : ℚ)], [2]] 0 1).2.1 [9])
        (buildHistorySnapshot [[(1 : ℚ)], [2]] 0 1).2.2 [8]) 0 =
      readRef [[(1 : ℚ)], [2]] 0 := by
  refine ⟨by norm_num, by norm_num, ?_⟩
  exact (history_snapshot_copy_no_aliasing [[(1 : ℚ)], [2]] 0 1
    (by norm_num) (by norm_num) [9] [8]).2.2.1

/-- Counterexample for C7.  The claim asserts every percentage field of
the snapshot lies in `[0,100]` for every adapter input.  The handler
never clamps `memoryUsage`: when the OS memory counters report more
free than total bytes (total 2³⁰, free 2³¹), `memoryUsage` evaluates to
`-100`. -/
theorem snapshot_percentage_counterexample :
    (pollSnapshot initialMonitorState adapterOverFree).memoryUsage = -100 ∧
    ¬ (0 ≤ (pollSnapshot initialMonitorState adapterOverFree).memoryUsage) := by
  have h : (pollSnapshot initialMonitorState adapterOverFree).memoryUsage = -100 := by
    show (((adapterOverFree.totalmem : ℤ) - (adapterOverFree.freemem : ℤ) : ℤ) : ℚ) /
        (adapterOverFree.totalmem : ℚ) * 100 = -100
    norm_num [adapterOverFree, adapterBase]
  refine ⟨h, ?_⟩
  rw [h]
  norm_num

/-- Amended C7.  The snapshot's percentage fields lie in `[0,100]` and
its GB fields are non-negative under the sanity conditions the claim's
counterexample shows to be necessary: the memory counters satisfy
`0 < total` and `free ≤ total`, each parsed disk output satisfies
`0 ≤ FreeSpace ≤ Size`, any captured wifi signal is at most `100`, and
the GPU usage `Math.random()` draw is in `[0,1)`.  (`cpuUsage` is
clamped by the code and needs no hypothesis.) -/
theorem snapshot_field_ranges (st : MonitorState) (a : AdapterPoll)
    (hmem0 : 0 < a.totalmem) (hmem : a.freemem ≤ a.totalmem)
    (hd1 : DiskSane a.diskExec1) (hd2 : DiskSane a.diskExec2)
    (hd3 : DiskSane a.diskExec3) (hd4 : DiskSane a.diskExec4)
    (hnet : NetshSane a.netsh)
    (hg0 : 0 ≤ a.gpuRandUsage) (hg1 : a.gpuRandUsage < 1) :
    (0 ≤ (pollSnapshot st a).cpuUsage ∧ (pollSnapshot st a).cpuUsage ≤ 100) ∧
    (0 ≤ (pollSnapshot st a).memoryUsage ∧
      (pollSnapshot st a).memoryUsage ≤ 100) ∧
    (0 ≤ (pollSnapshot st a).storageUsage ∧
      (pollSnapshot st a).storageUsage ≤ 100) ∧
    (0 ≤ (pollSnapshot st a).gpuUsage ∧ (pollSnapshot st a).gpuUsage ≤ 100) ∧
    (0 ≤ (pollSnapshot st a).networkSignal ∧
      (pollSnapshot st a).networkSignal ≤ 100) ∧
    0 ≤ (pollSnapshot st a).totalMemory ∧
    0 ≤ (pollSnapshot st a).freeMemory ∧
    0 ≤ (pollSnapshot st a).usedMemory ∧
    0 ≤ (pollSnapshot st a).storageTotalGB ∧
    0 ≤ (pollSnapshot st a).storageFreeGB ∧
    0 ≤ (pollSnapshot st a).storageUsedGB := by
  have ecpu : (pollSnapshot st a).cpuUsage =
      (getCpuUsage st.previousCpuInfo a.cpus).1 := rfl
  have emem : (pollSnapshot st a).memoryUsage =
      (((a.totalmem : ℤ) - (a.freemem : ℤ) : ℤ) : ℚ) /
        (a.totalmem : ℚ) * 100 := rfl
  have etm : (pollSnapshot st a).totalMemory =
      jsToFixed1 ((a.totalmem : ℚ) / 1024 ^ 3) := rfl
  have efm : (pollSnapshot st a).freeMemory =
      jsToFixed1 ((a.freemem : ℚ) / 1024 ^ 3) := rfl
  have eum : (pollSnapshot st a).usedMemory =
      jsToFixed1 ((((a.totalmem : ℤ) - (a.freemem : ℤ) : ℤ) : ℚ) / 1024 ^ 3) := rfl
  have esu : (pollSnapshot st a).storageUsage =
      (getDiskUsage a.diskExec1).usagePercentage := rfl
  have est : (pollSnapshot st a).storageTotalGB =
      (getDiskUsage a.diskExec2).totalGB := rfl
  have esf : (pollSnapshot st a).storageFreeGB =
      (getDiskUsage a.diskExec3).freeGB := rfl
  have esd : (pollSnapshot st a).storageUsedGB =
      (getDiskUsage a.diskExec4).usedGB := rfl
  have egu : (pollSnapshot st a).gpuUsage =
      (getGPUInfo a.gpuNameMatch a.gpuRandTemp a.gpuRandUsage).usage := rfl
  have ens : (pollSnapshot st a).networkSignal =
      (getNetworkInfo a.netsh a.activeInterfaceCount a.netRandDown
        a.netRandUp).signalStrength := rfl
  have hX : (((a.totalmem : ℤ) - (a.freemem : ℤ) : ℤ) : ℚ) =
      (a.totalmem : ℚ) - (a.freemem : ℚ) := by
    push_cast
    ring
  have ht0 : (0 : ℚ) < (a.totalmem : ℚ) := by exact_mod_cast hmem0
  have hf0 : (0 : ℚ) ≤ (a.freemem : ℚ) := by positivity
  have hft : (a.freemem : ℚ) ≤ (a.totalmem : ℚ) := by exact_mod_cast hmem
  refine ⟨⟨?_, ?_⟩, ?_, ?_, ?_, ?_, ?_, ?_, ?_, ?_, ?_, ?_⟩
  · rw [ecpu]
    match st.previousCpuInfo with
    | some prev => exact (cpuUsageCalc_range prev (sampleOfCpus a.cpus)).1
    | none => exact le_refl 0
  · rw [ecpu]
    match st.previousCpuInfo with
    | some prev => exact (cpuUsageCalc_range prev (sampleOfCpus a.cpus)).2
    | none => norm_num [getCpuUsage]
  · rw [emem, hX]
    exact ratio_bound ht0 hf0 hft
  · rw [esu]
    exact (getDiskUsage_bounds a.diskExec1 hd1).1
  · rw [egu]
    exact getGPUInfo_usage_bounds a.gpuNameMatch a.gpuRandTemp a.gpuRandUsage hg0 hg1
  · rw [ens]
    exact getNetworkInfo_signal_bounds a.netsh a.activeInterfaceCount
      a.netRandDown a.netRandUp hnet
  · rw [etm]
    exact jsToFixed1_nonneg (by positivity)
  · rw [efm]
    exact jsToFixed1_nonneg (by positivity)
  · rw [eum, hX]
    exact jsToFixed1_nonneg (div_nonneg (by linarith) (by norm_num))
  · rw [est]
    exact (getDiskUsage_bounds a.diskExec2 hd2).2.1
  · rw [esf]
    exact (getDiskUsage_bounds a.diskExec3 hd3).2.2.1
  · rw [esd]
    exact (getDiskUsage_bounds a.diskExec4 hd4).2.2.2

/-- Witness for amended C7 on a sane concrete poll input (2 bytes total
memory, 1 free, every shell call failed). -/
theorem snapshot_field_ranges_witness :
    0 < adapterSane.totalmem ∧ adapterSane.freemem ≤ adapterSane.totalmem ∧
    (0 ≤ (pollSnapshot initialMonitorState adapterSane).memoryUsage ∧
      (pollSnapshot initialMonitorState adapterSane).memoryUsage ≤ 100) ∧
    (0 ≤ (pollSnapshot initialMonitorState adapterSane).storageUsage ∧
      (pollSnapshot initialMonitorState adapterSane).storageUsage ≤ 100) ∧
    0 ≤ (pollSnapshot initialMonitorState adapterSane).storageTotalGB := by
  have h := snapshot_field_ranges initialMonitorState adapterSane
    (by norm_num [adapterSane, adapterBase])
    (by norm_num [adapterSane, adapterBase])
    (fun lines hl => nomatch hl) (fun lines hl => nomatch hl)
    (fun lines hl => nomatch hl) (fun lines hl => nomatch hl)
    (fun s sig hs => nomatch hs)
    (by norm_num [adapterSane, adapterBase])
    (by norm_num [adapterSane, adapterBase])
  exact ⟨by norm_num [adapterSane, adapterBase],
    by norm_num [adapterSane, adapterBase],
    h.2.1, h.2.2.1, h.2.2.2.2.2.2.2.2.2.1⟩

/-- Witness for C6 on a concrete poll whose four disk queries all threw:
the snapshot carries the default storage values. -/
theorem snapshot_isolates_disk_failure_witness :
    DiskFailed adapterBase.diskExec1 ∧
    (pollSnapshot initialMonitorState adapterBase).storageUsage = 45 ∧
    (pollSnapshot initialMonitorState adapterBase).storageTotalGB = 500 := by
  have h := snapshot_isolates_disk_failure initialMonitorState adapterBase
    (Or.inl rfl) (Or.inl rfl) (Or.inl rfl) (Or.inl rfl)
  exact ⟨Or.inl rfl, h.1, h.2.1⟩
